import Mathlib

/-!
Verification of the openai-nim-proxy chat-completion gateway.

The development shallowly embeds the request-handling core of
`src/server.js` (and the closely related variants under `src/unnamed/`):
the model registry, the provider dispatch on the `model` string, the two
request translators (OpenAI-compatible NVIDIA body and Gemini native
body), the Gemini stream-transcoding relay, the buffer-mode fallback, and
the error/credential paths.

Modelling conventions:
- JavaScript runtime values are modelled by the inductive `JVal`; the JS
  `undefined` of an absent object property is modelled as `Option.none`
  (property lookup `jsGet` returns `Option JVal`).
- JS truthiness (`if (x)`, `x || d`) is the function `truthy` / `jsOrV`.
  The only JS falsy values are `undefined`, `null`, `false`, `0` and the
  empty string; `NaN` has no counterpart in `ℚ` and is not modelled.
- JS objects are association lists with distinct keys (object literals and
  parsed JSON bodies have unique keys; `jsGet` takes the first match).
- `JSON.parse` of an upstream byte fragment is abstracted as a parameter
  `parseLine : List Char → Option JVal`; everything after the parse
  (optional-chaining path extraction, truthiness test, re-emission) is
  modelled concretely.
- Impure envelope fields derived from `Date.now()` (the `id` and
  `created` fields of emitted chunk/completion objects) are abstracted
  away; the model keeps the fields that the claims constrain (the echoed
  model id and the content delta).
-/

/-- A JavaScript runtime value, as far as the proxy inspects one. `undefined`
is not a constructor: an absent property is `Option.none` at the lookup. -/
inductive JVal where
  | str : String → JVal
  | num : ℚ → JVal
  | bool : Bool → JVal
  | null : JVal
  | arr : List JVal → JVal
  | obj : List (String × JVal) → JVal

/-- JS truthiness of a present value: `null`, `false`, `0` and `""` are
falsy; every object and array is truthy. -/
def truthy : JVal → Bool
  | JVal.str s => s != ""
  | JVal.num q => q != 0
  | JVal.bool b => b
  | JVal.null => false
  | JVal.arr _ => true
  | JVal.obj _ => true

/-- JS truthiness of a possibly-absent value (`undefined` is falsy). -/
def jsTruthy : Option JVal → Bool
  | none => false
  | some v => truthy v

/-- JS `x || d` on a possibly-absent value: the value itself when truthy,
otherwise the default. -/
def jsOrV (v : Option JVal) (d : JVal) : JVal :=
  match v with
  | some x => if truthy x then x else d
  | none => d

/-- JS property read `o[k]`: first binding of `k`, `undefined` (`none`) when
absent. Prototype-chain lookups are not modelled. -/
def jsGet (o : List (String × JVal)) (k : String) : Option JVal :=
  match o with
  | [] => none
  | (k', v) :: rest => if k' = k then some v else jsGet rest k

/-- A chat message as destructured by the handlers: `{ role, content }`. -/
structure Message where
  role : String
  content : String

/-- `MODEL_MAPPING` from `src/server.js` lines 19-25: the fixed alias table
for the NVIDIA path. -/
def MODEL_MAPPING : List (String × String) :=
  [("gpt-4o", "meta/llama-3.1-405b-instruct"),
   ("gpt-4", "deepseek-ai/deepseek-v3.1-terminus"),
   ("gpt-4-turbo", "deepseek-ai/deepseek-r1-0528"),
   ("gpt-3.5-turbo", "meta/llama-3.1-70b-instruct"),
   ("gemini-pro", "deepseek-ai/deepseek-r1")]

/-- `MODEL_MAPPING[model] || 'meta/llama-3.1-405b-instruct'` (line 172) for a
string-valued model id; an absent id looks up nothing and falls to the
default. Total by construction: no id is rejected. -/
def nimModel (model : Option String) : String :=
  match model.bind (fun m => MODEL_MAPPING.lookup m) with
  | some v => v
  | none => "meta/llama-3.1-405b-instruct"

/-- Lift of `nimModel` to a destructured JS value: only a string model id can
hit the alias table; any other shape falls to the default. -/
def nimModelV (model : Option JVal) : String :=
  match model with
  | some (JVal.str s) => nimModel (some s)
  | _ => nimModel none

/-- `ENABLE_THINKING_MODE` flag (false in every source variant). -/
def ENABLE_THINKING_MODE : Bool := false

/-- The `extra_body` extension object attached when thinking mode is on. -/
def extraBodyVal : JVal :=
  JVal.obj [("chat_template_kwargs", JVal.obj [("thinking", JVal.bool true)])]

/-- The serialized NVIDIA request body built at `src/server.js` lines
175-182 from the destructured inbound body. `undefined`-valued properties
(`messages` when absent, `extra_body` when thinking mode is off) are
dropped, as JSON serialization drops them from the wire body. -/
def nimRequestObj (b : List (String × JVal)) : List (String × JVal) :=
  [("model", JVal.str (nimModelV (jsGet b "model")))] ++
  (match jsGet b "messages" with
   | some v => [("messages", v)]
   | none => []) ++
  [("temperature", jsOrV (jsGet b "temperature") (JVal.num 0.6)),
   ("max_tokens", jsOrV (jsGet b "max_tokens") (JVal.num 1024))] ++
  (if ENABLE_THINKING_MODE then [("extra_body", extraBodyVal)] else []) ++
  [("stream", jsOrV (jsGet b "stream") (JVal.bool false))]

/-- Lowercase an ASCII character, mirroring what `String.prototype.toLowerCase`
does on the ASCII model-id strings the proxy compares. -/
def charLower (c : Char) : Char :=
  if 65 ≤ c.toNat ∧ c.toNat ≤ 90 then Char.ofNat (c.toNat + 32) else c

/-- Does the first character list start with the second (JS
`String.prototype.startsWith`, case-sensitive)? -/
def leadsWith : List Char → List Char → Bool
  | _, [] => true
  | [], _ :: _ => false
  | a :: as, b :: bs => a == b && leadsWith as bs

/-- Does the first character list contain the second as a contiguous run
(JS `String.prototype.includes`)? -/
def containsSub : List Char → List Char → Bool
  | [], needle => needle.isEmpty
  | h :: t, needle => leadsWith (h :: t) needle || containsSub t needle

/-- `model.toLowerCase().includes('gemini')` (line 55). -/
def containsGemini (m : String) : Bool :=
  containsSub (m.data.map charLower) "gemini".data

/-- The dispatch test `model && model.toLowerCase().includes('gemini')` of
the unified handler: absent model id is falsy and goes to the NVIDIA
branch; an empty string is also falsy, coinciding with `containsGemini ""
= false`. -/
def geminiDispatch (model : Option String) : Bool :=
  match model with
  | none => false
  | some m => containsGemini m

/-- `model.startsWith('gemini') ? model : 'gemini-1.5-flash'` (line 102).
Note the check is the case-sensitive JS `startsWith`, not the
case-insensitive dispatch test. -/
def targetModel (m : String) : String :=
  if leadsWith m.data "gemini".data then m else "gemini-1.5-flash"

/-- The Gemini native endpoint URL built at line 103. -/
def nativeUrl (key m : String) : String :=
  "https://generativelanguage.googleapis.com/v1beta/models/" ++ targetModel m
    ++ ":streamGenerateContent?key=" ++ key

/-- The `systemInstruction` object `{ parts: [{ text }] }` (line 71). -/
def sysInstrOf (content : String) : JVal :=
  JVal.obj [("parts", JVal.arr [JVal.obj [("text", JVal.str content)]])]

/-- One pushed turn `{ role, parts: [{ text }] }` with `assistant`
rewritten to `model` and every other non-system role left as `user`
(lines 74-78). -/
def turnOf (m : Message) : JVal :=
  JVal.obj [("role", JVal.str (if m.role == "assistant" then "model" else "user")),
            ("parts", JVal.arr [JVal.obj [("text", JVal.str m.content)]])]

/-- One iteration of the message-conversion loop of `src/server.js` lines
68-80 (identical in `src/unnamed/part_002` lines 76-86): a system message
overwrites `systemInstruction` (so the last one wins); any other message
is appended to `contents`. -/
def geminiStep (acc : Option JVal × List JVal) (msg : Message) : Option JVal × List JVal :=
  if msg.role == "system" then (some (sysInstrOf msg.content), acc.2)
  else (acc.1, acc.2 ++ [turnOf msg])

/-- The whole conversion loop: starts from `systemInstruction = undefined`
and `contents = []` and folds `geminiStep` over the inbound messages in
order. -/
def geminiContents (msgs : List Message) : Option JVal × List JVal :=
  msgs.foldl geminiStep (none, [])

/-- The `generationConfig` object of the Gemini native body (`src/server.js`
lines 86-90): `temperature || 0.7`, `max_tokens || 8192` renamed to
`maxOutputTokens`, and a fixed `candidateCount`. -/
def generationConfig (temperature max_tokens : Option JVal) : List (String × JVal) :=
  [("temperature", jsOrV temperature (JVal.num 0.7)),
   ("maxOutputTokens", jsOrV max_tokens (JVal.num 8192)),
   ("candidateCount", JVal.num 1)]

/-- One write on the client SSE channel: either one `data: <chunk JSON>\n\n`
event carrying the echoed model id and the content delta, or the terminal
`data: [DONE]\n\n` line. -/
inductive SSEWrite where
  | event : String → JVal → SSEWrite
  | done : SSEWrite

/-- Is a write the terminal `[DONE]` line? -/
def isDone : SSEWrite → Bool
  | SSEWrite.done => true
  | SSEWrite.event _ _ => false

/-- JS whitespace, as far as `trim` on these ASCII payload lines matters. -/
def isWs (c : Char) : Bool :=
  c == ' ' || c == '\t' || c == '\n' || c == '\r'

/-- JS `String.prototype.trim` on a character list. -/
def trimChars (l : List Char) : List Char :=
  ((l.dropWhile isWs).reverse.dropWhile isWs).reverse

/-- JS `chunk.toString().split('\n')` on a character list. -/
def splitNl : List Char → List (List Char)
  | [] => [[]]
  | c :: rest =>
      if c == '\n' then [] :: splitNl rest
      else
        match splitNl rest with
        | [] => [[c]]
        | l :: ls => (c :: l) :: ls

/-- `line.replace(/^data: /, '').trim()` (line 122): strip one anchored
`data: ` run if present, then trim. -/
def cleanLine (line : List Char) : List Char :=
  trimChars (if leadsWith line "data: ".data then line.drop 6 else line)

/-- Optional-chaining property read `v?.k` this matches only on objects. -/
def jfield (v : JVal) (k : String) : Option JVal :=
  match v with
  | JVal.obj fs => jsGet fs k
  | _ => none

/-- Optional-chaining index read `v?.[i]` this matches only on arrays. -/
def jindex (v : JVal) (i : ℕ) : Option JVal :=
  match v with
  | JVal.arr l => l.get? i
  | _ => none

/-- `parsed.candidates?.[0]?.content?.parts?.[0]?.text` (line 128, and
line 117 of `src/unnamed/part_002`). -/
def extractText (v : JVal) : Option JVal :=
  (jfield v "candidates").bind (fun c =>
    (jindex c 0).bind (fun c0 =>
      (jfield c0 "content").bind (fun ct =>
        (jfield ct "parts").bind (fun ps =>
          (jindex ps 0).bind (fun p0 =>
            jfield p0 "text")))))

/-- Writes produced for a single upstream line by the transcoding relay
(`src/server.js` lines 119-148): skip blank lines, strip the `data: `
run and trim, skip the bare array brackets and commas of the pseudo-array
framing, attempt the (abstracted) JSON parse, extract the delta text, and
emit one client chunk only for a truthy extracted text; a failed parse is
silently dropped. -/
def lineWrites (parseLine : List Char → Option JVal) (model : String)
    (line : List Char) : List SSEWrite :=
  if trimChars line = [] then []
  else
    let c := cleanLine line
    if c = "[".data ∨ c = "]".data ∨ c = ",".data then []
    else
      match parseLine c with
      | none => []
      | some v =>
        match extractText v with
        | none => []
        | some t => if truthy t then [SSEWrite.event model t] else []

/-- Writes produced for one upstream `data` callback: the chunk is split on
newlines and each line is processed independently (line 118). -/
def chunkWrites (parseLine : List Char → Option JVal) (model : String)
    (chunk : String) : List SSEWrite :=
  (splitNl chunk.data).flatMap (lineWrites parseLine model)

/-- The full write sequence of the transcoding relay for an upstream stream
delivered as `chunks`: the per-chunk writes in arrival order, then the
single `data: [DONE]` write of the `end` handler (lines 154-157), after
which the response is closed. -/
def relayWrites (parseLine : List Char → Option JVal) (model : String)
    (chunks : List String) : List SSEWrite :=
  chunks.flatMap (chunkWrites parseLine model) ++ [SSEWrite.done]

/-- `response.data.pipe(res)`: the NVIDIA streaming passthrough relays the
upstream SSE write sequence verbatim. -/
def nvidiaPipe (upstream : List SSEWrite) : List SSEWrite := upstream

/-- A client-facing reply: one buffered JSON body, or an SSE write
sequence on a `text/event-stream` response. -/
inductive Reply where
  | json : ℕ → JVal → Reply
  | sse : List SSEWrite → Reply

/-- Is the reply an event stream rather than a single JSON body? -/
def isSse : Reply → Bool
  | Reply.sse _ => true
  | Reply.json _ _ => false

/-- The NVIDIA-branch success reply (`src/server.js` lines 196-203): pipe the
upstream stream when the raw `stream` value is truthy, otherwise forward
the buffered upstream JSON as the single response body. -/
def nvidiaReply (stream : Option JVal) (upstreamJson : JVal)
    (upstreamWrites : List SSEWrite) : Reply :=
  if jsTruthy stream then Reply.sse (nvidiaPipe upstreamWrites)
  else Reply.json 200 upstreamJson

/-- The Gemini-native-branch success reply (`src/server.js` lines 106-157):
the handler always sets `text/event-stream` headers and relays through the
transcoding relay; the client `stream` flag is never consulted on this
branch. -/
def geminiNativeReply (stream : Option JVal) (model : String)
    (parseLine : List Char → Option JVal) (chunks : List String) : Reply :=
  Reply.sse (relayWrites parseLine model chunks)

/-- The single non-streaming completion object emitted by the buffer-mode
branch (`src/unnamed/part_002` lines 145-155); `id` and `created` come
from `Date.now()` and are abstracted away. -/
def completionJson (model : String) (text : JVal) : JVal :=
  JVal.obj [("object", JVal.str "chat.completion"),
            ("model", JVal.str model),
            ("choices", JVal.arr [JVal.obj
              [("index", JVal.num 0),
               ("message", JVal.obj [("role", JVal.str "assistant"), ("content", text)]),
               ("finish_reason", JVal.str "stop")]])]

/-- `response.data.candidates?.[0]?.content?.parts?.[0]?.text || ""`
(`src/unnamed/part_002` line 117). -/
def bufferText (respData : JVal) : JVal :=
  jsOrV (extractText respData) (JVal.str "")

/-- The buffer-mode Gemini reply (`src/unnamed/part_002` lines 120-156):
for a truthy `stream` flag, fake streaming as one chunk event followed by
the terminal sentinel; otherwise one buffered completion JSON. -/
def bufferReply (stream : Option JVal) (model : String) (respData : JVal) : Reply :=
  if jsTruthy stream then
    Reply.sse [SSEWrite.event model (bufferText respData), SSEWrite.done]
  else
    Reply.json 200 (completionJson model (bufferText respData))

/-- The client-facing error envelope of the NVIDIA catch block. -/
structure ErrorEnvelope where
  message : String
  etype : String
  code : ℕ

/-- What the proxy can see of a failed upstream call: `error.response?.status`
and `error.message`. -/
structure UpstreamFailure where
  responseStatus : Option ℕ
  message : String

/-- JS `s || d` on strings: the empty string is falsy. -/
def jsStrOr (s d : String) : String := if s = "" then d else s

/-- The NVIDIA catch block (`src/server.js` lines 205-219): status
`error.response?.status || 500` and an envelope whose `code` repeats that
status. -/
def nvidiaCatch (e : UpstreamFailure) : ℕ × ErrorEnvelope :=
  (match e.responseStatus with
   | some s => s
   | none => 500,
   { message := jsStrOr e.message "Internal server error",
     etype := "invalid_request_error",
     code := match e.responseStatus with
             | some s => s
             | none => 500 })

/-- The Gemini native catch block (`src/server.js` lines 159-165): a fixed
500 with a fixed body, regardless of the upstream status. -/
def geminiNativeCatch (e : UpstreamFailure) : ℕ × JVal :=
  (500, JVal.obj [("error", JVal.str "Gemini Native API Error")])

/-- What a handler does before (or instead of) contacting the upstream:
either return an early error reply, or issue the upstream call with the
given target string (URL or Authorization header value). -/
inductive PreCall where
  | earlyError : ℕ → JVal → PreCall
  | callIssued : String → PreCall

/-- Did the handler return an error before calling the upstream? -/
def isEarlyError : PreCall → Bool
  | PreCall.earlyError _ _ => true
  | PreCall.callIssued _ => false

/-- JS truthiness of a possibly-absent environment string. -/
def jsTruthyStr : Option String → Bool
  | none => false
  | some s => s != ""

/-- The Gemini-branch credential guard (`src/server.js` lines 56-59) followed
by the native call of line 106: a falsy `GEMINI_API_KEY` returns 500
before any upstream call; otherwise the call to the native URL is issued
with the key in the query string. -/
def geminiPreCall (geminiKey : Option String) (model : String) : PreCall :=
  if jsTruthyStr geminiKey = false then
    PreCall.earlyError 500 (JVal.obj [("error", JVal.str "Gemini API Key is missing")])
  else
    PreCall.callIssued (nativeUrl (match geminiKey with | some k => k | none => "") model)

/-- The NVIDIA branch has no credential guard (`src/server.js` lines
186-194): the upstream call is issued unconditionally, and the template
literal renders an absent `NIM_API_KEY` as the header value
`Bearer undefined`. -/
def nvidiaPreCall (nimKey : Option String) : PreCall :=
  PreCall.callIssued ("Bearer " ++ (match nimKey with | some k => k | none => "undefined"))

/-- The `/gemini/chat/completions` passthrough translation (`src/server.js`
concatenated-file lines 341-347): shallow-copy the inbound body and
delete `repetition_penalty`, but only when the field is present with a
truthy value (the test is `if (newBody.repetition_penalty)`). -/
def geminiNewBody (body : List (String × JVal)) : List (String × JVal) :=
  if jsTruthy (jsGet body "repetition_penalty") then
    body.filter (fun p => p.1 != "repetition_penalty")
  else body

/-- A well-formed client-facing SSE write sequence: some chunk events, then
exactly one terminal `[DONE]` write, after which nothing more. -/
def wellFormedSSE (ws : List SSEWrite) : Prop :=
  ∃ evs, ws = evs ++ [SSEWrite.done] ∧ ∀ w ∈ evs, isDone w = false

/-- A parsed upstream fragment of the Gemini native pseudo-array format with
one extractable text delta. -/
def sampleCandidates : JVal :=
  JVal.obj [("candidates", JVal.arr [JVal.obj
    [("content", JVal.obj [("parts", JVal.arr [JVal.obj [("text", JVal.str "Hello")]])])]])]

/-- Per-line relay writes never contain the terminal sentinel: a line yields
either nothing or a single chunk event. -/
theorem lineWrites_not_done (p : List Char → Option JVal) (m : String)
    (line : List Char) : ∀ w ∈ lineWrites p m line, isDone w = false := by
  intro w hw
  unfold lineWrites at hw
  dsimp only at hw
  repeat' split at hw
  all_goals simp_all [isDone]

/-- The transcoding relay always produces a well-formed SSE sequence: all
chunk events first, then the single `[DONE]` of the `end` handler. -/
theorem relayWrites_shape (p : List Char → Option JVal) (m : String)
    (chunks : List String) : wellFormedSSE (relayWrites p m chunks) := by
  refine ⟨chunks.flatMap (chunkWrites p m), rfl, ?_⟩
  intro w hw
  rw [List.mem_flatMap] at hw
  obtain ⟨c, _, hwc⟩ := hw
  unfold chunkWrites at hwc
  rw [List.mem_flatMap] at hwc
  obtain ⟨ln, _, hwl⟩ := hwc
  exact lineWrites_not_done p m ln w hwl

/-- C1 counterexample: a `stream=false` request on the `src/server.js`
Gemini native branch still gets a `text/event-stream` reply (here one
chunk event and the `[DONE]` write), never the single JSON completion the
claim requires, because that branch never consults the `stream` flag. -/
theorem C1_counterexample :
    geminiNativeReply (some (JVal.bool false)) "gemini-1.5-pro"
        (fun _ => some sampleCandidates) ["chunk"] =
      Reply.sse [SSEWrite.event "gemini-1.5-pro" (JVal.str "Hello"), SSEWrite.done] ∧
    isSse (geminiNativeReply (some (JVal.bool false)) "gemini-1.5-pro"
        (fun _ => some sampleCandidates) ["chunk"]) = true :=
  ⟨rfl, rfl⟩

/-- C1 (amended): for `stream=false` with a successful upstream, the NVIDIA
branch and the buffer-mode Gemini branch each send exactly one JSON
completion object; the `src/server.js` Gemini native branch instead always
replies with a `text/event-stream`, regardless of the `stream` flag. -/
theorem C1_theorem :
    (∀ (stream : Option JVal) (uj : JVal) (uw : List SSEWrite),
      jsTruthy stream = false → nvidiaReply stream uj uw = Reply.json 200 uj) ∧
    (∀ (stream : Option JVal) (m : String) (rd : JVal),
      jsTruthy stream = false →
      bufferReply stream m rd = Reply.json 200 (completionJson m (bufferText rd))) ∧
    (∀ (stream : Option JVal) (m : String) (p : List Char → Option JVal)
      (cs : List String), isSse (geminiNativeReply stream m p cs) = true) := by
  refine ⟨?_, ?_, ?_⟩
  · intro s uj uw h
    simp [nvidiaReply, h]
  · intro s m rd h
    simp [bufferReply, h]
  · intro s m p cs
    rfl

/-- C1 witness: the amended statement applied at a concrete `stream=false`
request on both buffered paths. -/
theorem C1_witness :
    jsTruthy (some (JVal.bool false)) = false ∧
    nvidiaReply (some (JVal.bool false)) JVal.null [] = Reply.json 200 JVal.null ∧
    bufferReply (some (JVal.bool false)) "gemini-2.5-flash" JVal.null =
      Reply.json 200 (completionJson "gemini-2.5-flash" (bufferText JVal.null)) :=
  ⟨rfl, C1_theorem.1 (some (JVal.bool false)) JVal.null [] rfl,
    C1_theorem.2.1 (some (JVal.bool false)) "gemini-2.5-flash" JVal.null rfl⟩

/-- C2: on every provider path a `stream=true` reply is an ordered sequence
of chunk events followed by exactly one `[DONE]` write and nothing after:
the Gemini transcoding relay produces such a sequence for every chunk
arrival pattern and every parse outcome; the buffer-mode fallback emits
exactly one chunk event then `[DONE]`; and the NVIDIA passthrough pipes
the upstream writes verbatim, preserving a well-formed upstream SSE
sequence. -/
theorem C2_theorem :
    (∀ (parseLine : List Char → Option JVal) (model : String) (chunks : List String),
      wellFormedSSE (relayWrites parseLine model chunks)) ∧
    (∀ (stream : Option JVal) (model : String) (respData : JVal),
      jsTruthy stream = true →
      bufferReply stream model respData =
        Reply.sse [SSEWrite.event model (bufferText respData), SSEWrite.done]) ∧
    (∀ upstream : List SSEWrite,
      wellFormedSSE upstream → wellFormedSSE (nvidiaPipe upstream)) := by
  refine ⟨relayWrites_shape, ?_, ?_⟩
  · intro s m rd h
    simp [bufferReply, h]
  · intro up h
    exact h

/-- C2 witness: the statement applied at a concrete upstream delivery on each
path, discharging the `stream` truthiness and upstream well-formedness
hypotheses at concrete values. -/
theorem C2_witness :
    wellFormedSSE (relayWrites (fun _ => none) "gemini-1.5-pro" ["data: [DONE]"]) ∧
    (jsTruthy (some (JVal.bool true)) = true ∧
      bufferReply (some (JVal.bool true)) "gemini-2.5-flash" JVal.null =
        Reply.sse [SSEWrite.event "gemini-2.5-flash" (bufferText JVal.null), SSEWrite.done]) ∧
    wellFormedSSE (nvidiaPipe [SSEWrite.done]) :=
  ⟨C2_theorem.1 (fun _ => none) "gemini-1.5-pro" ["data: [DONE]"],
    ⟨rfl, C2_theorem.2.1 (some (JVal.bool true)) "gemini-2.5-flash" JVal.null rfl⟩,
    C2_theorem.2.2 [SSEWrite.done] ⟨[], rfl, by simp⟩⟩

/-- The first field of the outbound NVIDIA body is always the resolved
model id. -/
theorem jsGet_nimRequestObj_model (b : List (String × JVal)) :
    jsGet (nimRequestObj b) "model" = some (JVal.str (nimModelV (jsGet b "model"))) := by
  simp [nimRequestObj, jsGet]

/-- C3: model resolution on the NVIDIA path is total — every key of
`MODEL_MAPPING` yields exactly its mapped upstream id in the outbound
body, and every other model id (unknown strings and an absent id alike)
yields the default `meta/llama-3.1-405b-instruct`; no id is rejected. -/
theorem C3_theorem :
    (∀ (k v : String) (b : List (String × JVal)), (k, v) ∈ MODEL_MAPPING →
      jsGet b "model" = some (JVal.str k) →
      jsGet (nimRequestObj b) "model" = some (JVal.str v)) ∧
    (∀ (m : String) (b : List (String × JVal)), MODEL_MAPPING.lookup m = none →
      jsGet b "model" = some (JVal.str m) →
      jsGet (nimRequestObj b) "model" =
        some (JVal.str "meta/llama-3.1-405b-instruct")) ∧
    (∀ b : List (String × JVal), jsGet b "model" = none →
      jsGet (nimRequestObj b) "model" =
        some (JVal.str "meta/llama-3.1-405b-instruct")) := by
  refine ⟨?_, ?_, ?_⟩
  · intro k v b hmem hb
    rw [jsGet_nimRequestObj_model, hb]
    simp only [ MODEL_MAPPING, List.mem_cons, List.not_mem_nil, or_false,
      Prod.mk.injEq] at hmem
    rcases hmem with ⟨rfl, rfl⟩ | ⟨rfl, rfl⟩ | ⟨rfl, rfl⟩ | ⟨rfl, rfl⟩ | ⟨rfl, rfl⟩ <;> rfl
  · intro m b hlook hb
    rw [jsGet_nimRequestObj_model, hb]
    simp [nimModelV, nimModel, hlook]
  · intro b hb
    rw [jsGet_nimRequestObj_model, hb]
    rfl

/-- C3 witness: a mapped alias, an unknown alias and an absent model id, each
resolved concretely. -/
theorem C3_witness :
    (("gpt-4", "deepseek-ai/deepseek-v3.1-terminus") ∈ MODEL_MAPPING ∧
      jsGet (nimRequestObj [("model", JVal.str "gpt-4")]) "model" =
        some (JVal.str "deepseek-ai/deepseek-v3.1-terminus")) ∧
    (MODEL_MAPPING.lookup "claude-9" = none ∧
      jsGet (nimRequestObj [("model", JVal.str "claude-9")]) "model" =
        some (JVal.str "meta/llama-3.1-405b-instruct")) ∧
    jsGet (nimRequestObj []) "model" = some (JVal.str "meta/llama-3.1-405b-instruct") :=
  ⟨⟨by decide,
      C3_theorem.1 "gpt-4" "deepseek-ai/deepseek-v3.1-terminus" _ (by decide) rfl⟩,
    ⟨rfl, C3_theorem.2.1 "claude-9" _ rfl rfl⟩,
    C3_theorem.2.2 [] rfl⟩

/-- C4 counterexample: `Gemini-2.5-pro` contains the marker `gemini`
case-insensitively and is dispatched to the native provider, yet the
forwarded model is the fallback `gemini-1.5-flash`, not the id itself,
because the forwarding test is the case-sensitive `startsWith('gemini')`. -/
theorem C4_counterexample :
    geminiDispatch (some "Gemini-2.5-pro") = true ∧
    targetModel "Gemini-2.5-pro" = "gemini-1.5-flash" ∧
    ¬ ("gemini-1.5-flash" : String) = "Gemini-2.5-pro" :=
  ⟨rfl, rfl, by decide⟩

/-- C4 (amended): dispatch to the native provider happens whenever the
lowercased model id contains `gemini`, but the id is forwarded as-is in
the upstream URL only when it starts with lowercase `gemini`; for any
other dispatched id — including `Gemini-2.5-pro` and `my-gemini` — the
fallback `gemini-1.5-flash` is substituted. -/
theorem C4_theorem :
    (∀ key m : String, leadsWith m.data "gemini".data = true →
      nativeUrl key m =
        "https://generativelanguage.googleapis.com/v1beta/models/" ++ m ++
          ":streamGenerateContent?key=" ++ key) ∧
    (∀ key m : String, leadsWith m.data "gemini".data = false →
      nativeUrl key m =
        "https://generativelanguage.googleapis.com/v1beta/models/" ++
          "gemini-1.5-flash" ++ ":streamGenerateContent?key=" ++ key) ∧
    (geminiDispatch (some "Gemini-2.5-pro") = true ∧
      targetModel "Gemini-2.5-pro" = "gemini-1.5-flash") ∧
    (geminiDispatch (some "my-gemini") = true ∧
      targetModel "my-gemini" = "gemini-1.5-flash") := by
  refine ⟨?_, ?_, ⟨rfl, rfl⟩, ⟨rfl, rfl⟩⟩
  · intro key m h
    simp [nativeUrl, targetModel, h]
  · intro key m h
    simp [nativeUrl, targetModel, h]

/-- C4 witness: the amended statement applied to one id forwarded as-is and
one dispatched id that gets the fallback. -/
theorem C4_witness :
    (leadsWith "gemini-2.5-flash".data "gemini".data = true ∧
      nativeUrl "KEY" "gemini-2.5-flash" =
        "https://generativelanguage.googleapis.com/v1beta/models/" ++
          "gemini-2.5-flash" ++ ":streamGenerateContent?key=" ++ "KEY") ∧
    (leadsWith "Gemini-2.5-pro".data "gemini".data = false ∧
      nativeUrl "KEY" "Gemini-2.5-pro" =
        "https://generativelanguage.googleapis.com/v1beta/models/" ++
          "gemini-1.5-flash" ++ ":streamGenerateContent?key=" ++ "KEY") :=
  ⟨⟨rfl, C4_theorem.1 "KEY" "gemini-2.5-flash" rfl⟩,
    ⟨rfl, C4_theorem.2.1 "KEY" "Gemini-2.5-pro" rfl⟩⟩

/-- C5: the native-schema translator maps every message sequence so that
`systemInstruction` wraps the content of the last message with role
`system` (absent when there is none), and the remaining messages, in
their original order, become turns wrapping their text as
`parts: [{text}]` with role `assistant` rewritten to `model` and role
`user` left as `user` (the `turnOf` rewrite sends `assistant` to `model`
and every other non-system role, in particular `user`, to `user`). -/
theorem C5_theorem :
    ∀ msgs : List Message,
      (geminiContents msgs).1 =
        ((msgs.filter (fun m => m.role == "system")).getLast?).map
          (fun m => sysInstrOf m.content) ∧
      (geminiContents msgs).2 =
        (msgs.filter (fun m => !(m.role == "system"))).map turnOf := by
  intro msgs
  induction msgs using List.reverseRecOn with
  | nil => exact ⟨rfl, rfl⟩
  | append_singleton l m ih =>
    unfold geminiContents at *
    rw [List.foldl_append]
    by_cases hs : m.role == "system"
    · constructor
      · simp [geminiStep, hs, List.filter_append, List.getLast?_concat]
      · simp [geminiStep, hs, List.filter_append, ih.2]
    · constructor
      · simp [geminiStep, hs, List.filter_append, ih.1]
      · simp [geminiStep, hs, List.filter_append, ih.2]

/-- C6: when `temperature` and `max_tokens` are both absent inbound, the
outbound NVIDIA body carries `temperature = 0.6` and `max_tokens = 1024`,
and the Gemini native `generationConfig` carries `temperature = 0.7` and
`maxOutputTokens = 8192`. -/
theorem C6_theorem :
    (∀ b : List (String × JVal), jsGet b "temperature" = none →
      jsGet (nimRequestObj b) "temperature" = some (JVal.num 0.6)) ∧
    (∀ b : List (String × JVal), jsGet b "max_tokens" = none →
      jsGet (nimRequestObj b) "max_tokens" = some (JVal.num 1024)) ∧
    jsGet (generationConfig none none) "temperature" = some (JVal.num 0.7) ∧
    jsGet (generationConfig none none) "maxOutputTokens" = some (JVal.num 8192) := by
  refine ⟨?_, ?_, rfl, rfl⟩
  · intro b h
    rcases hm : jsGet b "messages" with _ | v <;>
      simp [nimRequestObj, hm, jsGet, h, jsOrV, ENABLE_THINKING_MODE]
  · intro b h
    rcases hm : jsGet b "messages" with _ | v <;>
      simp [nimRequestObj, hm, jsGet, h, jsOrV, ENABLE_THINKING_MODE]

/-- C6 witness: the defaults materialize on the empty inbound body. -/
theorem C6_witness :
    jsGet ([] : List (String × JVal)) "temperature" = none ∧
    jsGet (nimRequestObj []) "temperature" = some (JVal.num 0.6) ∧
    jsGet (nimRequestObj []) "max_tokens" = some (JVal.num 1024) :=
  ⟨rfl, C6_theorem.1 [] rfl, C6_theorem.2.1 [] rfl⟩

/-- Reading any other key through the `repetition_penalty` filter is
unchanged. -/
theorem jsGet_filter_ne (b : List (String × JVal)) (k k' : String) (h : ¬ k' = k) :
    jsGet (b.filter (fun p => p.1 != k)) k' = jsGet b k' := by
  induction b with
  | nil => rfl
  | cons p rest ih =>
    by_cases hp : p.1 = k
    · have hk : ¬ k = k' := fun hh => h hh.symm
      simp [List.filter_cons, hp, jsGet, hk, ih]
    · simp [List.filter_cons, hp, jsGet, ih]

/-- Reading the filtered key itself yields `undefined` after the delete. -/
theorem jsGet_filter_self (b : List (String × JVal)) (k : String) :
    jsGet (b.filter (fun p => p.1 != k)) k = none := by
  induction b with
  | nil => rfl
  | cons p rest ih =>
    by_cases h : p.1 = k
    · simp [List.filter_cons, h, ih]
    · simp [List.filter_cons, h, jsGet, ih]

/-- C7 counterexample: an inbound body with `top_p: 0.9` on the NVIDIA path
loses the field — the outbound `nimRequest` is rebuilt from five known
fields, so the claim that every other inbound field survives unchanged is
false. -/
theorem C7_counterexample :
    jsGet [("model", JVal.str "gpt-4o"), ("messages", JVal.arr []),
        ("top_p", JVal.num 0.9)] "top_p" = some (JVal.num 0.9) ∧
    jsGet (nimRequestObj [("model", JVal.str "gpt-4o"), ("messages", JVal.arr []),
        ("top_p", JVal.num 0.9)]) "top_p" = none :=
  ⟨rfl, rfl⟩

/-- C7 (amended): the `/gemini/chat/completions` passthrough translation
copies the inbound body, removing `repetition_penalty` exactly when it is
present with a truthy value and leaving every other field unchanged; the
NVIDIA translation instead rebuilds the outbound body from the known
fields (`model`, `messages`, `temperature`, `max_tokens`, `extra_body`,
`stream`), dropping every other inbound field such as `top_p`. -/
theorem C7_theorem :
    (∀ (b : List (String × JVal)) (k : String), ¬ k = "repetition_penalty" →
      jsGet (geminiNewBody b) k = jsGet b k) ∧
    (∀ b : List (String × JVal), jsTruthy (jsGet b "repetition_penalty") = true →
      jsGet (geminiNewBody b) "repetition_penalty" = none) ∧
    (∀ b : List (String × JVal), jsTruthy (jsGet b "repetition_penalty") = false →
      geminiNewBody b = b) ∧
    (∀ (b : List (String × JVal)) (k : String),
      ¬ k ∈ ["model", "messages", "temperature", "max_tokens", "extra_body", "stream"] →
      jsGet (nimRequestObj b) k = none) := by
  refine ⟨?_, ?_, ?_, ?_⟩
  · intro b k hk
    unfold geminiNewBody
    split
    · exact jsGet_filter_ne b "repetition_penalty" k hk
    · rfl
  · intro b h
    simp [geminiNewBody, h, jsGet_filter_self]
  · intro b h
    simp [geminiNewBody, h]
  · intro b k hk
    simp only [List.mem_cons, List.not_mem_nil, or_false, not_or] at hk
    obtain ⟨h1, h2, h3, h4, h5, h6⟩ := hk
    have g1 : ¬ ("model" = k) := fun hh => h1 hh.symm
    have g2 : ¬ ("messages" = k) := fun hh => h2 hh.symm
    have g3 : ¬ ("temperature" = k) := fun hh => h3 hh.symm
    have g4 : ¬ ("max_tokens" = k) := fun hh => h4 hh.symm
    have g6 : ¬ ("stream" = k) := fun hh => h6 hh.symm
    rcases hm : jsGet b "messages" with _ | v <;>
      simp [nimRequestObj, hm, jsGet, ENABLE_THINKING_MODE, g1, g2, g3, g4, g6]

/-- C7 witness: the passthrough keeps `top_p` and strips a truthy
`repetition_penalty`, while the NVIDIA rebuild drops `top_p`. -/
theorem C7_witness :
    (¬ ("top_p" : String) = "repetition_penalty" ∧
      jsGet (geminiNewBody [("top_p", JVal.num 0.9), ("repetition_penalty", JVal.num 2)])
          "top_p" =
        jsGet [("top_p", JVal.num 0.9), ("repetition_penalty", JVal.num 2)] "top_p") ∧
    (jsTruthy (jsGet [("top_p", JVal.num 0.9), ("repetition_penalty", JVal.num 2)]
        "repetition_penalty") = true ∧
      jsGet (geminiNewBody [("top_p", JVal.num 0.9), ("repetition_penalty", JVal.num 2)])
        "repetition_penalty" = none) ∧
    (¬ ("top_p" : String) ∈ ["model", "messages", "temperature", "max_tokens",
        "extra_body", "stream"] ∧
      jsGet (nimRequestObj [("top_p", JVal.num 0.9)]) "top_p" = none) :=
  ⟨⟨by decide, C7_theorem.1 _ "top_p" (by decide)⟩,
    ⟨rfl, C7_theorem.2.1 _ rfl⟩,
    ⟨by decide, C7_theorem.2.2.2 _ "top_p" (by decide)⟩⟩

/-- C8 counterexample: an upstream 429 on the `src/server.js` Gemini native
branch reaches the client as a fixed 500 with a generic body, not as a 429
with an envelope whose `code` is 429. -/
theorem C8_counterexample :
    (geminiNativeCatch ⟨some 429, "Request failed with status code 429"⟩).1 = 500 ∧
    ¬ (500 : ℕ) = 429 :=
  ⟨rfl, by decide⟩

/-- C8 (amended): on the NVIDIA path an upstream failure carrying a status is
propagated — the client status and the envelope `code` both equal the
upstream status; on the `src/server.js` Gemini native branch every failure
collapses to a fixed 500 with the fixed body, regardless of the upstream
status. -/
theorem C8_theorem :
    (∀ (e : UpstreamFailure) (s : ℕ), e.responseStatus = some s →
      (nvidiaCatch e).1 = s ∧ (nvidiaCatch e).2.code = s) ∧
    (∀ e : UpstreamFailure, geminiNativeCatch e =
      (500, JVal.obj [("error", JVal.str "Gemini Native API Error")])) := by
  refine ⟨?_, fun e => rfl⟩
  intro e s h
  constructor <;> simp [nvidiaCatch, h]

/-- C8 witness: the NVIDIA propagation applied at a concrete 429 failure. -/
theorem C8_witness :
    (⟨some 429, "x"⟩ : UpstreamFailure).responseStatus =
      some 429 ∧
    (nvidiaCatch ⟨some 429, "x"⟩).1 = 429 ∧
    (nvidiaCatch ⟨some 429, "x"⟩).2.code = 429 :=
  ⟨rfl, (C8_theorem.1 ⟨some 429, "x"⟩ 429 rfl).1,
    (C8_theorem.1 ⟨some 429, "x"⟩ 429 rfl).2⟩

/-- C9 counterexample: with `NIM_API_KEY` absent the NVIDIA branch does not
return 500 before the upstream call — it issues the call anyway, with the
template literal rendering the missing key as `Bearer undefined`. -/
theorem C9_counterexample :
    nvidiaPreCall none = PreCall.callIssued ("Bearer " ++ "undefined") ∧
    isEarlyError (nvidiaPreCall none) = false :=
  ⟨rfl, rfl⟩

/-- C9 (amended): only the Gemini native path guards its credential — a
missing or empty `GEMINI_API_KEY` returns HTTP 500 before any upstream
call, and a truthy key issues the native call; the NVIDIA path never
returns early, issuing the upstream call whatever the key state. -/
theorem C9_theorem :
    (∀ m : String, geminiPreCall none m =
      PreCall.earlyError 500 (JVal.obj [("error", JVal.str "Gemini API Key is missing")])) ∧
    (∀ m : String, geminiPreCall (some "") m =
      PreCall.earlyError 500 (JVal.obj [("error", JVal.str "Gemini API Key is missing")])) ∧
    geminiPreCall (some "SECRET") "gemini-2.5-flash" =
      PreCall.callIssued (nativeUrl "SECRET" "gemini-2.5-flash") ∧
    (∀ nimKey : Option String, isEarlyError (nvidiaPreCall nimKey) = false) :=
  ⟨fun m => rfl, fun m => rfl, rfl, fun nimKey => rfl⟩

/-- C10: an explicit falsy zero for `temperature` or `max_tokens` is replaced
by the provider default in the outbound body on both paths, and an
explicit `stream: false` produces the same outbound `stream` value as an
absent `stream` — the `||` defaulting cannot tell them apart. -/
theorem C10_theorem :
    (∀ b : List (String × JVal), jsGet b "temperature" = some (JVal.num 0) →
      jsGet (nimRequestObj b) "temperature" = some (JVal.num 0.6)) ∧
    (∀ b : List (String × JVal), jsGet b "max_tokens" = some (JVal.num 0) →
      jsGet (nimRequestObj b) "max_tokens" = some (JVal.num 1024)) ∧
    jsGet (generationConfig (some (JVal.num 0)) (some (JVal.num 0))) "temperature" =
      some (JVal.num 0.7) ∧
    jsGet (generationConfig (some (JVal.num 0)) (some (JVal.num 0))) "maxOutputTokens" =
      some (JVal.num 8192) ∧
    (∀ b : List (String × JVal), jsGet b "stream" = some (JVal.bool false) →
      jsGet (nimRequestObj b) "stream" = some (JVal.bool false)) ∧
    (∀ b : List (String × JVal), jsGet b "stream" = none →
      jsGet (nimRequestObj b) "stream" = some (JVal.bool false)) := by
  refine ⟨?_, ?_, by simp [generationConfig, jsOrV, truthy, jsGet],
    by simp [generationConfig, jsOrV, truthy, jsGet], ?_, ?_⟩
  · intro b h
    rcases hm : jsGet b "messages" with _ | v <;>
      simp [nimRequestObj, hm, jsGet, h, jsOrV, truthy, ENABLE_THINKING_MODE]
  · intro b h
    rcases hm : jsGet b "messages" with _ | v <;>
      simp [nimRequestObj, hm, jsGet, h, jsOrV, truthy, ENABLE_THINKING_MODE]
  · intro b h
    rcases hm : jsGet b "messages" with _ | v <;>
      simp [nimRequestObj, hm, jsGet, h, jsOrV, truthy, ENABLE_THINKING_MODE]
  · intro b h
    rcases hm : jsGet b "messages" with _ | v <;>
      simp [nimRequestObj, hm, jsGet, h, jsOrV, truthy, ENABLE_THINKING_MODE]

/-- C10 witness: explicit zeros and an explicit `stream: false` on concrete
bodies, against the absent-field body. -/
theorem C10_witness :
    jsGet [("temperature", JVal.num 0)] "temperature" = some (JVal.num 0) ∧
    jsGet (nimRequestObj [("temperature", JVal.num 0)]) "temperature" =
      some (JVal.num 0.6) ∧
    jsGet (nimRequestObj [("max_tokens", JVal.num 0)]) "max_tokens" =
      some (JVal.num 1024) ∧
    jsGet (nimRequestObj [("stream", JVal.bool false)]) "stream" =
      some (JVal.bool false) ∧
    jsGet (nimRequestObj []) "stream" = some (JVal.bool false) :=
  ⟨rfl, C10_theorem.1 [("temperature", JVal.num 0)] rfl,
    C10_theorem.2.1 [("max_tokens", JVal.num 0)] rfl,
    C10_theorem.2.2.2.2.1 [("stream", JVal.bool false)] rfl,
    C10_theorem.2.2.2.2.2 [] rfl⟩
